import Mathlib

/-!
Verification of the stereoscope source-detection and docker-daemon
acquisition code (`pkg/image/source.go` and
`pkg/image/docker/daemon_provider.go`), via a shallow embedding.

Effectful collaborators (the filesystem, the docker daemon client, the
tar reader, home-directory expansion, the external reference parser and
the downstream tarball provider) are modelled as explicit environment
records of pure outcome functions; the decision logic itself is
translated statement by statement from the Go source.
-/

namespace Stereoscope

/-- The `Source` enumeration from `pkg/image/source.go`. -/
inductive Source where
  | UnknownSource
  | DockerTarballSource
  | DockerDaemonSource
  | OciDirectorySource
  | OciTarballSource
  | OciRegistrySource
deriving DecidableEq, Repr

/-- `SchemeSeparator = ":"`, modelled as its single character. -/
def SchemeSeparator : Char := ':'

/-- Go `strings.ToLower`, modelled per character over the string's data
(the ASCII case mapping, which is all the scheme vocabulary exercises). -/
def toLowerGo (s : String) : String := String.mk (s.data.map Char.toLower)

/-- `ParseSourceScheme` from `pkg/image/source.go`: lowercase the token and
match it against the fixed scheme vocabulary. -/
def ParseSourceScheme (source : String) : Source :=
  let s := toLowerGo source
  if s = "docker-archive" then Source.DockerTarballSource
  else if s = "docker" then Source.DockerDaemonSource
  else if s = "oci-dir" then Source.OciDirectorySource
  else if s = "oci-archive" then Source.OciTarballSource
  else if s = "oci-registry" then Source.OciRegistrySource
  else if s = "registry" then Source.OciRegistrySource
  else Source.UnknownSource

/-- Split a character list around the first occurrence of `sep`:
`none` when `sep` does not occur. Models the single-separator case of
Go `strings.SplitN(s, sep, 2)`. -/
def splitFirst (sep : Char) : List Char → Option (List Char × List Char)
  | [] => none
  | c :: rest =>
    if c = sep then some ([], rest)
    else
      match splitFirst sep rest with
      | none => none
      | some (a, b) => some (c :: a, b)

/-- `strings.SplitN(userInput, SchemeSeparator, 2)`: one element when no
separator occurs, otherwise the part before the first separator and the
verbatim remainder. -/
def splitN2 (userInput : String) : List String :=
  match splitFirst SchemeSeparator userInput.data with
  | none => [userInput]
  | some (a, b) => [String.mk a, String.mk b]

/-- Go `strings.TrimPrefix`: drop `pre` from the front of `s` when it is a
prefix, otherwise return `s` unchanged. -/
def TrimPrefix (s pre : String) : String :=
  if pre.data.isPrefixOf s.data then String.mk (s.data.drop pre.data.length) else s

/-- Outcome of `fs.Stat`: success (with the directory bit), an
`os.IsNotExist` error, or any other error. -/
inductive StatResult where
  | found (isDir : Bool)
  | notExist
  | statError (msg : String)
deriving DecidableEq, Repr

/-- Outcome of `file.ReaderFromTar`: the member was found, a
`file.ErrFileNotFound` error, or any other read error. -/
inductive TarLookup where
  | found
  | notFound
  | readError (msg : String)
deriving DecidableEq, Repr

/-- The environment of `detectSource`: filesystem probes, home-directory
expansion, the weak reference validator, and the daemon client used by
`DetermineImagePullSource`. Each collaborator is a pure outcome map. -/
structure DetectEnv where
  expand : String → Except String String
  stat : String → StatResult
  openErr : String → Option String
  seekErr : String → Option String
  readerFromTar : String → String → TarLookup
  isRegistryReference : String → Bool
  clientErr : Option String
  ping : Nat → Option String

/-- `path.Join` restricted to the two-component uses in the source. -/
def pathJoin (a b : String) : String := a ++ "/" ++ b

/-- The ordered probe table of `detectSourceFromPath`:
`manifest.json` (docker archive) strictly before `oci-layout` (oci archive). -/
def tarProbeCandidates : List (String × Source) :=
  [("manifest.json", Source.DockerTarballSource),
   ("oci-layout", Source.OciTarballSource)]

/-- The archive probing loop of `detectSourceFromPath`: before each lookup
re-seek to the start of the archive; a found member selects its source, a
not-found error continues, any other error aborts the probe. -/
def probeArchive (env : DetectEnv) (imgPath : String) :
    List (String × Source) → Except String Source
  | [] => Except.ok Source.UnknownSource
  | (p, src) :: rest =>
    match env.seekErr imgPath with
    | some e => Except.error ("unable to seek archive=" ++ imgPath ++ ": " ++ e)
    | none =>
      match env.readerFromTar imgPath p with
      | TarLookup.found => Except.ok src
      | TarLookup.notFound => probeArchive env imgPath rest
      | TarLookup.readError e => Except.error e

/-- `detectSourceFromPath` from `pkg/image/source.go`: expand the path,
stat it (non-existence is the inconclusive `UnknownSource` outcome, not an
error), recognize an `oci-layout` directory, else probe the file as an
archive for `manifest.json` then `oci-layout`. -/
def detectSourceFromPath (env : DetectEnv) (imgPath0 : String) : Except String Source :=
  match env.expand imgPath0 with
  | Except.error e =>
    Except.error ("unable to expand potential home dir expression: " ++ e)
  | Except.ok imgPath =>
    match env.stat imgPath with
    | StatResult.notExist => Except.ok Source.UnknownSource
    | StatResult.statError e =>
      Except.error ("failed to open path=" ++ imgPath ++ ": " ++ e)
    | StatResult.found isDir =>
      if isDir then
        match env.stat (pathJoin imgPath "oci-layout") with
        | StatResult.notExist => Except.ok Source.UnknownSource
        | _ => Except.ok Source.OciDirectorySource
      else
        match env.openErr imgPath with
        | some e => Except.error ("unable to open archive=" ++ imgPath ++ ": " ++ e)
        | none => probeArchive env imgPath tarProbeCandidates

/-- `DetermineImagePullSource` from `pkg/image/source.go`: a weakly-invalid
reference is `UnknownSource`; otherwise the daemon is pinged under a
10-second timeout and a non-empty API version selects
`DockerDaemonSource`, with `OciRegistrySource` as the fallback. -/
def DetermineImagePullSource (env : DetectEnv) (userInput : String) : Source :=
  if ¬ env.isRegistryReference userInput then Source.UnknownSource
  else
    match env.clientErr with
    | none =>
      match env.ping 10 with
      | some apiVersion =>
        if apiVersion ≠ "" then Source.DockerDaemonSource
        else Source.OciRegistrySource
      | none => Source.OciRegistrySource
    | some _ => Source.OciRegistrySource

/-- `detectSource` from `pkg/image/source.go`: split on the first scheme
separator; with no separator run the filesystem probe, with a separator
map the hint through `ParseSourceScheme` and trim it (plus one separator)
from the original string; then expand path-based locations, and for a
still-unknown source try `DetermineImagePullSource` on the full original
input, invalidating the location if that too is inconclusive. -/
def detectSource (env : DetectEnv) (userInput : String) :
    Except String (Source × String) :=
  let step : Except String (Source × String) :=
    match splitN2 userInput with
    | [_] =>
      match detectSourceFromPath env userInput with
      | Except.error e => Except.error e
      | Except.ok s => Except.ok (s, userInput)
    | [sourceHint, _] =>
      Except.ok (ParseSourceScheme sourceHint,
        TrimPrefix userInput (sourceHint ++ ":"))
    | _ => Except.ok (Source.UnknownSource, userInput)
  match step with
  | Except.error e => Except.error e
  | Except.ok (source, location) =>
    match source with
    | Source.OciDirectorySource | Source.OciTarballSource
    | Source.DockerTarballSource =>
      match env.expand location with
      | Except.error e =>
        Except.error ("unable to expand potential home dir expression: " ++ e)
      | Except.ok loc => Except.ok (source, loc)
    | Source.UnknownSource =>
      let imagePullSource := DetermineImagePullSource env userInput
      if imagePullSource ≠ Source.UnknownSource then
        Except.ok (imagePullSource, userInput)
      else
        Except.ok (Source.UnknownSource, "")
    | _ => Except.ok (source, location)

/-- A decoded pull-status event (`pullEvent`); only the `Status` field is
consulted by the decode loop in `daemon_provider.go`. -/
structure PullEvent where
  status : String
deriving DecidableEq, Repr

/-- One step of the json decoder over the pull response stream: a decoded
event, a clean `io.EOF`, or any other decode error. -/
inductive DecodeItem where
  | event (e : PullEvent)
  | eof
  | decodeError (msg : String)
deriving DecidableEq, Repr

/-- Go `strings.HasPrefix`, modelled over the string's data. -/
def hasPrefixGo (s pre : String) : Bool := pre.data.isPrefixOf s.data

/-- The filter condition of the decode loop in `pull`: drop the daemon's
terminal summary lines. -/
def isSummaryLine (e : PullEvent) : Bool :=
  hasPrefixGo e.status "Digest:" || hasPrefixGo e.status "Status:"

/-- The decode loop of `pull`: decode until clean EOF (success) or a decode
error (fatal); summary lines are skipped, every other event is forwarded to
the pull status record. Returns the loop outcome and, in order, the events
forwarded to `status.onEvent`. An exhausted stream decodes as EOF. -/
def pullLoop : List DecodeItem → Except String Unit × List PullEvent
  | [] => (Except.ok (), [])
  | DecodeItem.eof :: _ => (Except.ok (), [])
  | DecodeItem.decodeError m :: _ =>
    (Except.error ("failed to pull image: " ++ m), [])
  | DecodeItem.event e :: rest =>
    let r := pullLoop rest
    if isSummaryLine e then r else (r.1, e :: r.2)

/-- The environment of `pull`: outcomes of the docker config load, the
client construction, `newPullOptions`, the `ImagePull` request, and the
decoded response stream. -/
structure PullEnv where
  configLoadErr : Option String
  getClientErr : Option String
  pullOptionsErr : Option String
  imagePullErr : Option String
  stream : List DecodeItem

/-- The observable outcome of `pull`: its returned error, the events
forwarded to the pull status record, and the status record's terminal flag
(`none` when the record was never created because the config load failed
first). -/
structure PullOutcome where
  result : Except String Unit
  forwarded : List PullEvent
  complete : Option Bool
deriving Repr

/-- `pull` from `daemon_provider.go`: load config, create the status record
(whose `complete` flag a deferred step sets on every later exit path), get
the client, build pull options, open the pull stream, and run the decode
loop. -/
def pull (env : PullEnv) : PullOutcome :=
  match env.configLoadErr with
  | some e =>
    { result := Except.error ("failed to load docker config: " ++ e),
      forwarded := [], complete := none }
  | none =>
    match env.getClientErr with
    | some e =>
      { result := Except.error ("failed to load docker client: " ++ e),
        forwarded := [], complete := some true }
    | none =>
      match env.pullOptionsErr with
      | some e =>
        { result := Except.error e, forwarded := [], complete := some true }
      | none =>
        match env.imagePullErr with
        | some e =>
          { result := Except.error ("pull failed: " ++ e),
            forwarded := [], complete := some true }
        | none =>
          let r := pullLoop env.stream
          { result := r.1, forwarded := r.2, complete := some true }

/-- The fields of `types.ImageInspect` consumed by `Provide`. -/
structure ImageInspect where
  repoTags : List String
  repoDigests : List String
deriving DecidableEq, Repr

/-- Outcome of `ImageInspectWithRaw`: success, a `client.IsErrNotFound`
error, or any other error. On error the Go call yields the zero-value
inspect struct (empty tag and digest slices). -/
inductive InspectResult where
  | found (i : ImageInspect)
  | notFound
  | inspectError (msg : String)
deriving DecidableEq, Repr

/-- The image object produced by the downstream tarball provider; opaque to
this pipeline. -/
structure Image where
  id : Nat
deriving DecidableEq, Repr

/-- The environment of `DaemonImageProvider.Provide`: temp-dir and file
creation, the client, the two inspections (one in `Provide`, one in
`trackSaveProgress`), the pull environment, the `ImageSave` request, the
`io.Copy` outcome (bytes copied on success), and the downstream tarball
provider as an outcome map over (archive path, tags, digests). -/
structure ProvideEnv where
  newTempDir : Except String String
  createErr : Option String
  getClientErr : Option String
  inspect : InspectResult
  pullEnv : PullEnv
  trackGetClientErr : Option String
  trackInspect : InspectResult
  imageSaveErr : Option String
  copy : Except String Nat
  tarballProvide : String → List String → List String → Except String Image

/-- The existence-check step of `Provide` (lines 172-182): inspect the
image; a not-found error triggers `pull`, any other error is fatal. Yields
the tag and digest lists of the `inspectResult` variable as used at the
final handoff — the zero-value empty lists when the inspect failed and the
image was pulled instead. -/
def resolveInspect (env : ProvideEnv) : Except String (List String × List String) :=
  match env.inspect with
  | InspectResult.found i => Except.ok (i.repoTags, i.repoDigests)
  | InspectResult.notFound =>
    match (pull env.pullEnv).result with
    | Except.error e => Except.error e
    | Except.ok _ => Except.ok ([], [])
  | InspectResult.inspectError e =>
    Except.error ("unable to inspect existing image: " ++ e)

/-- `trackSaveProgress` reduced to its fallible steps: get a client and
re-inspect the image (any inspection error, not-found included, is fatal
here); the progress objects themselves carry no decision logic. -/
def trackSaveProgress (env : ProvideEnv) : Except String Unit :=
  match env.trackGetClientErr with
  | some e => Except.error ("unable to get docker client: " ++ e)
  | none =>
    match env.trackInspect with
    | InspectResult.found _ => Except.ok ()
    | InspectResult.notFound => Except.error "unable to inspect image: not found"
    | InspectResult.inspectError e => Except.error ("unable to inspect image: " ++ e)

/-- First value assigned to `stage.Current` in `Provide`. -/
def requestingStage : String := "requesting image from Docker"

/-- Second value assigned to `stage.Current` in `Provide`. -/
def savingStage : String := "saving image to disk"

/-- `DaemonImageProvider.Provide` from `daemon_provider.go`, returning its
result together with the ordered trace of assignments to the shared
`stage.Current` label: temp dir and file, client, existence check (with
conditional pull), `trackSaveProgress`, stage `requesting`, `ImageSave`,
stage `saving`, the copy (zero bytes copied is the explicit empty-image
error), and the handoff to the tarball provider. -/
def Provide (env : ProvideEnv) : Except String Image × List String :=
  match env.newTempDir with
  | Except.error e => (Except.error e, [])
  | Except.ok imageTempDir =>
    match env.createErr with
    | some e => (Except.error ("unable to create temp file for image: " ++ e), [])
    | none =>
      match env.getClientErr with
      | some e => (Except.error ("unable to create a docker client: " ++ e), [])
      | none =>
        match resolveInspect env with
        | Except.error e => (Except.error e, [])
        | Except.ok (repoTags, repoDigests) =>
          match trackSaveProgress env with
          | Except.error e =>
            (Except.error ("unable to trace image save progress: " ++ e), [])
          | Except.ok _ =>
            match env.imageSaveErr with
            | some e =>
              (Except.error ("unable to save image tar: " ++ e), [requestingStage])
            | none =>
              match env.copy with
              | Except.error e =>
                (Except.error ("unable to save image to tar: " ++ e),
                 [requestingStage, savingStage])
              | Except.ok nBytes =>
                if nBytes = 0 then
                  (Except.error "cannot provide an empty image",
                   [requestingStage, savingStage])
                else
                  (env.tarballProvide (pathJoin imageTempDir "image.tar")
                     repoTags repoDigests,
                   [requestingStage, savingStage])

/-! ## Helper lemmas -/

/-- Splitting at the first separator reassembles to the original list. -/
theorem splitFirst_append (sep : Char) :
    ∀ (l a b : List Char), splitFirst sep l = some (a, b) → l = a ++ sep :: b := by
  intro l
  induction l with
  | nil => intro a b h; simp [splitFirst] at h
  | cons c rest ih =>
    intro a b h
    by_cases hc : c = sep
    · subst hc
      simp [splitFirst] at h
      rw [h.1, ← h.2]; simp
    · simp [splitFirst, hc] at h
      rcases hr : splitFirst sep rest with _ | p
      · rw [hr] at h; simp at h
      · rw [hr] at h
        simp at h
        rcases h with ⟨ha, hb⟩
        have := ih p.1 p.2 (by rw [hr])
        rw [← ha, ← hb, this]
        simp

/-- A two-way split reassembles: the input is the hint, one separator, and
the verbatim remainder. -/
theorem splitN2_eq_two (input hint rest : String)
    (h : splitN2 input = [hint, rest]) : input = hint ++ ":" ++ rest := by
  unfold splitN2 at h
  rcases hs : splitFirst SchemeSeparator input.data with _ | p <;> rw [hs] at h
  · simp at h
  · rcases p with ⟨a, b⟩
    simp at h
    obtain ⟨h1, h2⟩ := h
    have hd := splitFirst_append SchemeSeparator input.data a b hs
    have hx : (hint ++ ":" ++ rest).data = input.data := by
      rw [hd, String.data_append, String.data_append, ← h1, ← h2]
      simp [SchemeSeparator]
    exact congrArg String.mk hx.symm

/-- Trimming the hint-plus-separator prefix recovers the remainder
verbatim. -/
theorem trimPrefix_append (hint rest : String) :
    TrimPrefix (hint ++ ":" ++ rest) (hint ++ ":") = rest := by
  unfold TrimPrefix
  have hp : (hint ++ ":").data.isPrefixOf (hint ++ ":" ++ rest).data = true := by
    rw [String.data_append]
    simp [List.isPrefixOf_iff_prefix]
  rw [hp]
  simp only [String.data_append (hint ++ ":") rest, List.drop_left]
  simp

/-! ## Concrete environments used by witnesses and counterexamples -/

/-- A minimal detection environment: identity home-dir expansion, an empty
filesystem, no weakly-valid references, a constructible client whose ping
fails. -/
def baseDetectEnv : DetectEnv :=
  { expand := fun s => Except.ok s
    stat := fun _ => StatResult.notExist
    openErr := fun _ => none
    seekErr := fun _ => none
    readerFromTar := fun _ _ => TarLookup.notFound
    isRegistryReference := fun _ => false
    clientErr := none
    ping := fun _ => none }

/-- A filesystem holding one archive file `both.tar` whose top-level
members include both `manifest.json` and `oci-layout`. -/
def bothMembersEnv : DetectEnv :=
  { baseDetectEnv with
    stat := fun p => if p = "both.tar" then StatResult.found false else StatResult.notExist
    readerFromTar := fun p m =>
      if p = "both.tar" ∧ (m = "manifest.json" ∨ m = "oci-layout") then TarLookup.found
      else TarLookup.notFound }

/-- A filesystem where `Bogus:thing` and `thing` are both directories
containing an `oci-layout` entry; nothing weakly parses as a registry
reference (as in Go, where the uppercase repository name `Bogus` fails
even weak validation). -/
def ociDirFsEnv : DetectEnv :=
  { baseDetectEnv with
    stat := fun p =>
      if p = "Bogus:thing" ∨ p = "thing" then StatResult.found true
      else if p = "Bogus:thing/oci-layout" ∨ p = "thing/oci-layout" then StatResult.found false
      else StatResult.notExist }

/-- A filesystem with a directory `layout-dir` whose child `oci-layout`
stats with a permission error rather than a not-exist error. -/
def permDeniedDirEnv : DetectEnv :=
  { baseDetectEnv with
    stat := fun p =>
      if p = "layout-dir" then StatResult.found true
      else if p = "layout-dir/oci-layout" then StatResult.statError "permission denied"
      else StatResult.notExist }

/-- An environment where every input weakly parses and the daemon answers
the ping with API version `1.41`. -/
def daemonUpEnv : DetectEnv :=
  { baseDetectEnv with
    isRegistryReference := fun _ => true
    ping := fun _ => some "1.41" }

/-! ## Claim theorems: source disambiguation -/

/-- Claim C2: when an archive's top-level members include both
`manifest.json` and `oci-layout`, `detectSourceFromPath` returns
`DockerTarballSource` and never `OciTarballSource`, because
`manifest.json` is probed first in the fixed candidate order. -/
theorem detect_manifest_before_oci_layout (env : DetectEnv) (p q : String)
    (hexp : env.expand p = Except.ok q)
    (hstat : env.stat q = StatResult.found false)
    (hopen : env.openErr q = none)
    (hseek : env.seekErr q = none)
    (hman : env.readerFromTar q "manifest.json" = TarLookup.found)
    (_hoci : env.readerFromTar q "oci-layout" = TarLookup.found) :
    detectSourceFromPath env p = Except.ok Source.DockerTarballSource ∧
    detectSourceFromPath env p ≠ Except.ok Source.OciTarballSource := by
  have h : detectSourceFromPath env p = Except.ok Source.DockerTarballSource := by
    simp [detectSourceFromPath, probeArchive, tarProbeCandidates, hexp, hstat,
      hopen, hseek, hman]
  exact ⟨h, by simp [h]⟩

/-- Witness for C2 on a concrete archive containing both members. -/
theorem detect_manifest_before_oci_layout_witness :
    detectSourceFromPath bothMembersEnv "both.tar" = Except.ok Source.DockerTarballSource ∧
    detectSourceFromPath bothMembersEnv "both.tar" ≠ Except.ok Source.OciTarballSource :=
  detect_manifest_before_oci_layout bothMembersEnv "both.tar" "both.tar"
    rfl rfl rfl rfl rfl rfl

/-- Claim C3: a weakly-valid reference selects `DockerDaemonSource` exactly
when the client is constructible and the 10-second-bounded ping answers
with a non-empty API version, and `OciRegistrySource` in every other case;
a weakly-invalid reference selects `UnknownSource`. -/
theorem determine_pull_source (env : DetectEnv) (s : String) :
    (env.isRegistryReference s = true →
      ((DetermineImagePullSource env s = Source.DockerDaemonSource ↔
        env.clientErr = none ∧ ∃ v, env.ping 10 = some v ∧ v ≠ "") ∧
       (DetermineImagePullSource env s = Source.DockerDaemonSource ∨
        DetermineImagePullSource env s = Source.OciRegistrySource))) ∧
    (env.isRegistryReference s = false →
      DetermineImagePullSource env s = Source.UnknownSource) := by
  constructor
  · intro hreg
    unfold DetermineImagePullSource
    rw [hreg]
    rcases hc : env.clientErr with _ | e
    · rcases hp : env.ping 10 with _ | v
      · simp
      · by_cases hv : v = "" <;> simp [hv]
    · simp
  · intro hreg
    simp [DetermineImagePullSource, hreg]

/-- Witness for C3: with a reachable daemon answering version `1.41`, a
weakly-valid reference resolves to the docker daemon. -/
theorem determine_pull_source_witness :
    DetermineImagePullSource daemonUpEnv "ubuntu:latest" = Source.DockerDaemonSource :=
  ((determine_pull_source daemonUpEnv "ubuntu:latest").1 rfl).1.mpr
    ⟨rfl, "1.41", rfl, by decide⟩

/-- Claim C7: a non-existent path is an inconclusive probe, not a failure:
`detectSourceFromPath` returns `UnknownSource` with no error, and when
`detectSource` reaches the probe (no separator in the input) and the
registry probe is also inconclusive, it returns `UnknownSource` with the
empty location and no error. -/
theorem detect_nonexistent_path (env : DetectEnv) (p q : String)
    (hexp : env.expand p = Except.ok q)
    (hstat : env.stat q = StatResult.notExist) :
    detectSourceFromPath env p = Except.ok Source.UnknownSource ∧
    (splitN2 p = [p] → env.isRegistryReference p = false →
      detectSource env p = Except.ok (Source.UnknownSource, "")) := by
  have h1 : detectSourceFromPath env p = Except.ok Source.UnknownSource := by
    simp [detectSourceFromPath, hexp, hstat]
  refine ⟨h1, fun hsplit hreg => ?_⟩
  simp [detectSource, hsplit, h1, DetermineImagePullSource, hreg]

/-- Witness for C7 at a concrete missing path. -/
theorem detect_nonexistent_path_witness :
    detectSourceFromPath baseDetectEnv "no-such-file" = Except.ok Source.UnknownSource ∧
    detectSource baseDetectEnv "no-such-file" = Except.ok (Source.UnknownSource, "") := by
  have h := detect_nonexistent_path baseDetectEnv "no-such-file" "no-such-file" rfl rfl
  exact ⟨h.1, h.2 rfl rfl⟩

/-- Claim C10: for a directory, any stat outcome of the child `oci-layout`
other than not-exist — success or a failure such as permission denied —
selects `OciDirectorySource`; only a not-exist outcome yields
`UnknownSource`. -/
theorem detect_dir_child_stat (env : DetectEnv) (p q : String)
    (hexp : env.expand p = Except.ok q)
    (hstat : env.stat q = StatResult.found true) :
    (env.stat (pathJoin q "oci-layout") = StatResult.notExist →
      detectSourceFromPath env p = Except.ok Source.UnknownSource) ∧
    (env.stat (pathJoin q "oci-layout") ≠ StatResult.notExist →
      detectSourceFromPath env p = Except.ok Source.OciDirectorySource) := by
  constructor
  · intro hc
    simp [detectSourceFromPath, hexp, hstat, hc]
  · intro hc
    rcases h : env.stat (pathJoin q "oci-layout") with b | _ | e
    · simp [detectSourceFromPath, hexp, hstat, h]
    · exact absurd h hc
    · simp [detectSourceFromPath, hexp, hstat, h]

/-- Witness for C10: a permission-denied stat of the child entry still
selects the OCI directory source. -/
theorem detect_dir_child_stat_witness :
    detectSourceFromPath permDeniedDirEnv "layout-dir" = Except.ok Source.OciDirectorySource :=
  (detect_dir_child_stat permDeniedDirEnv "layout-dir" "layout-dir" rfl rfl).2 (by decide)

/-- Counterexample to claim C1: with an unrecognized scheme hint the code
does not fall through to the filesystem probe. Here both `Bogus:thing` and
its remainder `thing` are OCI-layout directories that the filesystem probe
would classify as `OciDirectorySource`, yet `detectSource` on
`Bogus:thing` returns `(UnknownSource, "")` — only the registry-reference
probe (on the full original string) runs, and it is inconclusive. -/
theorem detectSource_unrecognized_hint_cex :
    detectSourceFromPath ociDirFsEnv "thing" = Except.ok Source.OciDirectorySource ∧
    detectSourceFromPath ociDirFsEnv "Bogus:thing" = Except.ok Source.OciDirectorySource ∧
    detectSource ociDirFsEnv "Bogus:thing" = Except.ok (Source.UnknownSource, "") ∧
    detectSource ociDirFsEnv "Bogus:thing" ≠
      Except.ok (Source.OciDirectorySource, "thing") ∧
    detectSource ociDirFsEnv "thing" = Except.ok (Source.OciDirectorySource, "thing") := by
  have e1 : detectSource ociDirFsEnv "Bogus:thing" = Except.ok (Source.UnknownSource, "") := rfl
  refine ⟨rfl, rfl, e1, ?_, rfl⟩
  rw [e1]
  simp

/-- Claim C1 as amended: for an input whose hint before the first separator
is not in the scheme vocabulary, `detectSource` performs only the
registry-reference probe, on the full original string (the prefix is kept,
not ignored), never the filesystem probe; an inconclusive registry probe
yields `UnknownSource` with the location invalidated to the empty
string. -/
theorem detectSource_unrecognized_hint (env : DetectEnv) (input hint rest : String)
    (hsplit : splitN2 input = [hint, rest])
    (hscheme : ParseSourceScheme hint = Source.UnknownSource) :
    detectSource env input =
      (if DetermineImagePullSource env input = Source.UnknownSource then
        Except.ok (Source.UnknownSource, "")
      else Except.ok (DetermineImagePullSource env input, input)) := by
  simp only [detectSource, hsplit, hscheme]
  by_cases h : DetermineImagePullSource env input = Source.UnknownSource <;> simp [h]

/-- Witness for the amended C1 at the counterexample's input. -/
theorem detectSource_unrecognized_hint_witness :
    detectSource ociDirFsEnv "Bogus:thing" =
      (if DetermineImagePullSource ociDirFsEnv "Bogus:thing" = Source.UnknownSource then
        Except.ok (Source.UnknownSource, "")
      else Except.ok (DetermineImagePullSource ociDirFsEnv "Bogus:thing", "Bogus:thing")) :=
  detectSource_unrecognized_hint ociDirFsEnv "Bogus:thing" "Bogus" "thing" rfl rfl

/-- Claim C8: when the token before the first separator matches the scheme
vocabulary (case-insensitively), the input is exactly the hint plus one
separator plus the remainder, the trim removes exactly that prefix leaving
the remainder verbatim (further separators included), and `detectSource`
resolves to the hinted source with that verbatim location (given that
home-dir expansion leaves the remainder unchanged, as it does for any
location not starting with `~`). -/
theorem detectSource_scheme_location (env : DetectEnv) (input hint rest : String)
    (hsplit : splitN2 input = [hint, rest])
    (hsrc : ParseSourceScheme hint ≠ Source.UnknownSource)
    (hexp : env.expand rest = Except.ok rest) :
    input = hint ++ ":" ++ rest ∧
    TrimPrefix input (hint ++ ":") = rest ∧
    detectSource env input = Except.ok (ParseSourceScheme hint, rest) := by
  have heq : input = hint ++ ":" ++ rest := splitN2_eq_two input hint rest hsplit
  have htrim : TrimPrefix input (hint ++ ":") = rest := by
    rw [heq]; exact trimPrefix_append hint rest
  refine ⟨heq, htrim, ?_⟩
  simp only [detectSource, hsplit, htrim]
  rcases hps : ParseSourceScheme hint with _ | _ | _ | _ | _ | _
  · exact absurd hps hsrc
  · simp [hexp]
  · simp
  · simp [hexp]
  · simp [hexp]
  · simp

/-- Witness for C8 with a mixed-case hint and a remainder that itself
contains the separator character. -/
theorem detectSource_scheme_location_witness :
    "Docker-Archive:some:colons.tar" = "Docker-Archive" ++ ":" ++ "some:colons.tar" ∧
    TrimPrefix "Docker-Archive:some:colons.tar" ("Docker-Archive" ++ ":") = "some:colons.tar" ∧
    detectSource baseDetectEnv "Docker-Archive:some:colons.tar" =
      Except.ok (ParseSourceScheme "Docker-Archive", "some:colons.tar") :=
  detectSource_scheme_location baseDetectEnv "Docker-Archive:some:colons.tar"
    "Docker-Archive" "some:colons.tar" rfl (by decide) rfl

/-! ## Claim theorems: daemon acquisition pipeline -/

/-- The events decoded from a stream before its terminator (clean EOF, a
decode error, or exhaustion): the sequence the decode loop sees. -/
def streamEvents : List DecodeItem → List PullEvent
  | [] => []
  | DecodeItem.event e :: rest => e :: streamEvents rest
  | DecodeItem.eof :: _ => []
  | DecodeItem.decodeError _ :: _ => []

/-- The first decode error of a stream, when one occurs before a clean
EOF. -/
def streamError : List DecodeItem → Option String
  | [] => none
  | DecodeItem.event _ :: rest => streamError rest
  | DecodeItem.eof :: _ => none
  | DecodeItem.decodeError m :: _ => some m

/-- The decode loop forwards exactly the non-summary events, in order, and
succeeds exactly when the stream ends cleanly. -/
theorem pullLoop_characterization (items : List DecodeItem) :
    (pullLoop items).2 = (streamEvents items).filter (fun e => ! isSummaryLine e) ∧
    ((pullLoop items).1 = Except.ok () ↔ streamError items = none) := by
  induction items with
  | nil => simp [pullLoop, streamEvents, streamError]
  | cons it rest ih =>
    cases it with
    | eof => simp [pullLoop, streamEvents, streamError]
    | decodeError m => simp [pullLoop, streamEvents, streamError]
    | event e =>
      by_cases hs : isSummaryLine e <;>
        simp [pullLoop, streamEvents, streamError, hs, ih.1, ih.2]

/-- Claim C5: once the decode loop is reached, `pull` drops every event
whose status text begins with `Digest:` or `Status:` and forwards every
other event in order; it succeeds exactly when the stream ends cleanly
(EOF), returns any other decode error as fatal, and the deferred step
leaves the status record's terminal flag set regardless of the loop's
outcome. -/
theorem pull_filters_summary_lines (env : PullEnv)
    (h1 : env.configLoadErr = none)
    (h2 : env.getClientErr = none)
    (h3 : env.pullOptionsErr = none)
    (h4 : env.imagePullErr = none) :
    (pull env).forwarded = (streamEvents env.stream).filter (fun e => ! isSummaryLine e) ∧
    ((pull env).result = Except.ok () ↔ streamError env.stream = none) ∧
    (pull env).complete = some true := by
  have hc := pullLoop_characterization env.stream
  simp only [pull, h1, h2, h3, h4]
  exact ⟨hc.1, hc.2, trivial⟩

/-- A concrete pull environment whose stream interleaves summary and
progress lines before a clean EOF. -/
def samplePullEnv : PullEnv :=
  { configLoadErr := none
    getClientErr := none
    pullOptionsErr := none
    imagePullErr := none
    stream := [DecodeItem.event ⟨"Pulling fs layer"⟩,
               DecodeItem.event ⟨"Digest: sha256:4bc"⟩,
               DecodeItem.event ⟨"Status: Downloaded newer image"⟩,
               DecodeItem.event ⟨"Download complete"⟩,
               DecodeItem.eof] }

/-- Witness for C5 on the concrete stream: only the two non-summary lines
are forwarded, the pull succeeds, and the terminal flag is set. -/
theorem pull_filters_summary_lines_witness :
    (pull samplePullEnv).forwarded = [⟨"Pulling fs layer"⟩, ⟨"Download complete"⟩] ∧
    (pull samplePullEnv).result = Except.ok () ∧
    (pull samplePullEnv).complete = some true := by
  have h := pull_filters_summary_lines samplePullEnv rfl rfl rfl rfl
  exact ⟨by rw [h.1]; rfl, h.2.1.mpr rfl, h.2.2⟩

/-- Claim C4: a copy that transfers zero bytes with the stream closed
cleanly makes `Provide` fail with the explicit empty-image error. -/
theorem provide_empty_image (env : ProvideEnv) (d : String) (ts ds : List String)
    (h1 : env.newTempDir = Except.ok d)
    (h2 : env.createErr = none)
    (h3 : env.getClientErr = none)
    (h4 : resolveInspect env = Except.ok (ts, ds))
    (h5 : trackSaveProgress env = Except.ok ())
    (h6 : env.imageSaveErr = none)
    (h7 : env.copy = Except.ok 0) :
    (Provide env).1 = Except.error "cannot provide an empty image" := by
  simp [Provide, h1, h2, h3, h4, h5, h6, h7]

/-- Claim C9: whenever the save and copy complete with at least one byte,
`Provide` hands the saved archive's path and the tag and digest lists
obtained from the existence-check inspection to the tarball provider and
returns that provider's result — on the pull path included, where the
failed inspection contributed the zero-value (empty) lists. -/
theorem provide_handoff (env : ProvideEnv) (d : String) (ts ds : List String) (n : Nat)
    (h1 : env.newTempDir = Except.ok d)
    (h2 : env.createErr = none)
    (h3 : env.getClientErr = none)
    (h4 : resolveInspect env = Except.ok (ts, ds))
    (h5 : trackSaveProgress env = Except.ok ())
    (h6 : env.imageSaveErr = none)
    (h7 : env.copy = Except.ok n)
    (h8 : n ≠ 0) :
    (Provide env).1 = env.tarballProvide (pathJoin d "image.tar") ts ds := by
  simp [Provide, h1, h2, h3, h4, h5, h6, h7, h8]

/-- Claim C6: over any run of `Provide`, the stage label is assigned along
the fixed order `requesting image from Docker` then `saving image to
disk` — a (possibly empty) prefix of that two-value sequence, never
reordered or revisited, with both distinct values assigned on any run that
produces an image. -/
theorem provide_stage_transitions (env : ProvideEnv) :
    ((Provide env).2 = [] ∨ (Provide env).2 = [requestingStage] ∨
     (Provide env).2 = [requestingStage, savingStage]) ∧
    requestingStage ≠ savingStage ∧
    (∀ img, (Provide env).1 = Except.ok img →
      (Provide env).2 = [requestingStage, savingStage]) := by
  refine ⟨?_, by decide, ?_⟩ <;>
  · rcases h1 : env.newTempDir with e1 | d <;>
      rcases h2 : env.createErr with _ | e2 <;>
        rcases h3 : env.getClientErr with _ | e3 <;>
          rcases h4 : resolveInspect env with e4 | p <;>
            rcases h5 : trackSaveProgress env with e5 | u <;>
              rcases h6 : env.imageSaveErr with _ | e6 <;>
                rcases h7 : env.copy with e7 | n <;>
                  simp [Provide, h1, h2, h3, h4, h5, h6, h7] <;>
                    split <;> simp

/-- A fully successful concrete pipeline environment. -/
def baseProvideEnv : ProvideEnv :=
  { newTempDir := Except.ok "/tmp/stereoscope-123"
    createErr := none
    getClientErr := none
    inspect := InspectResult.found ⟨["ubuntu:latest"], ["ubuntu@sha256:4bc"]⟩
    pullEnv := samplePullEnv
    trackGetClientErr := none
    trackInspect := InspectResult.found ⟨["ubuntu:latest"], ["ubuntu@sha256:4bc"]⟩
    imageSaveErr := none
    copy := Except.ok 1024
    tarballProvide := fun p ts ds => Except.ok ⟨p.length + ts.length + ds.length⟩ }

/-- The successful environment, except the daemon reports the image as
missing so the pipeline pulls it first. -/
def pulledProvideEnv : ProvideEnv :=
  { baseProvideEnv with inspect := InspectResult.notFound }

/-- Witness for C4: the successful environment with a zero-byte copy. -/
theorem provide_empty_image_witness :
    (Provide { baseProvideEnv with copy := Except.ok 0 }).1 =
      Except.error "cannot provide an empty image" :=
  provide_empty_image _ "/tmp/stereoscope-123" ["ubuntu:latest"] ["ubuntu@sha256:4bc"]
    rfl rfl rfl rfl rfl rfl rfl

/-- Witness for C9 on the pull path: the handoff receives the archive path
and the zero-value tag and digest lists of the failed inspection. -/
theorem provide_handoff_witness :
    (Provide pulledProvideEnv).1 =
      pulledProvideEnv.tarballProvide (pathJoin "/tmp/stereoscope-123" "image.tar") [] [] :=
  provide_handoff pulledProvideEnv "/tmp/stereoscope-123" [] [] 1024
    rfl rfl rfl rfl rfl rfl rfl (by decide)

/-- Witness for C6 on the successful environment: both stages were
assigned, in order. -/
theorem provide_stage_transitions_witness :
    (Provide baseProvideEnv).2 = [requestingStage, savingStage] := by
  have h := provide_stage_transitions baseProvideEnv
  exact h.2.2 ⟨32⟩ rfl

end Stereoscope
